import Mathlib

/-!
Verification of the lianxin user-identity backend core.

Shallow embedding of the User aggregate, UserSession entity, the mock OTP
adapter, the JWT refresh flow and the login orchestration, translated from
the JavaScript sources.  Wall-clock time (`new Date()`) is modelled as an
explicit `now : Nat` parameter in milliseconds since the epoch; every JS
`throw new Error(msg)` becomes `Except.error msg` carrying the same message
string; collaborator services (bcrypt comparison, sha256 phone hashing,
token signing) are modelled as explicit function parameters.
-/

set_option autoImplicit false

namespace Lianxin

/-- JS `slice(-5)`: the last five elements of a list (the whole list when it
is shorter).  Used by `User.changePassword` for the password history cap. -/
def sliceLast5 {α : Type} (l : List α) : List α := l.drop (l.length - 5)

/-- Domain event, from `DomainEvent` (shared/events).  Only the event type
string matters for the verified claims; aggregate id and payload are
dropped from the model. -/
structure DomainEvent where
  eventType : String
deriving DecidableEq, Repr

/-- User status strings of the JS `User` entity, as an enumeration. -/
inductive UStatus
  | active
  | suspended
  | deactivated
  | pending_deletion
deriving DecidableEq, BEq, Repr

/-- One entry of the bounded password history (`{hash, changedAt}`). -/
structure HistEntry where
  hash : String
  changedAt : Nat
deriving DecidableEq, Repr

/-- The `User` domain entity (core/domain/user/entities/User.js), fields as
in the JS constructor; `id`, `uuid`, `phone` and timestamps that no claim
reads are dropped. -/
structure User where
  id : Nat := 0
  phoneHash : String
  passwordHash : Option String
  isVerified : Bool := false
  status : UStatus := .active
  suspensionReason : Option String := none
  suspensionUntil : Option Nat := none
  lastLogin : Option Nat := none
  lastIp : Option String := none
  failedLoginAttempts : Nat := 0
  lastFailedLogin : Option Nat := none
  deactivatedAt : Option Nat := none
  pendingDeletionAt : Option Nat := none
  passwordChangedAt : Option Nat := none
  passwordHistory : List HistEntry := []
  updatedAt : Nat := 0
  domainEvents : List DomainEvent := []
deriving DecidableEq, Repr

/-- `isLocked()`: failed-login counter at or above the hard-coded 5. -/
def User.isLocked (u : User) : Bool :=
  u.failedLoginAttempts ≥ 5

/-- `isSuspended()`: status is suspended, a suspension-until time is set and
the clock is still before it (JS `this.suspensionUntil && new Date() <
this.suspensionUntil`). -/
def User.isSuspended (u : User) (now : Nat) : Bool :=
  u.status == .suspended &&
    (match u.suspensionUntil with
     | none => false
     | some t => now < t)

/-- `canLogin()`: active, not suspended, not locked. -/
def User.canLogin (u : User) (now : Nat) : Bool :=
  u.status == .active && !(u.isSuspended now) && !u.isLocked

/-- Milliseconds in a day; JS `setDate(getDate() + durationDays)` is
modelled as adding `durationDays * dayMs` to the clock. -/
def dayMs : Nat := 86400000

/-- `suspend(reason, durationDays, suspendedBy)`. -/
def User.suspend (u : User) (reason : String) (durationDays : Nat)
    (suspendedBy : String) (now : Nat) : Except String (User × DomainEvent) :=
  if u.status == .suspended then
    .error "User is already suspended"
  else
    let e : DomainEvent := ⟨"UserSuspended"⟩
    .ok ({ u with
            status := .suspended
            suspensionReason := some reason
            suspensionUntil := some (now + durationDays * dayMs)
            updatedAt := now
            domainEvents := u.domainEvents ++ [e] }, e)

/-- `unsuspend(unsuspendedBy)`. -/
def User.unsuspend (u : User) (unsuspendedBy : String) (now : Nat) :
    Except String (User × DomainEvent) :=
  if u.status != .suspended then
    .error "User is not suspended"
  else
    let e : DomainEvent := ⟨"UserUnsuspended"⟩
    .ok ({ u with
            status := .active
            suspensionReason := none
            suspensionUntil := none
            updatedAt := now
            domainEvents := u.domainEvents ++ [e] }, e)

/-- `recordFailedLogin(ipAddress)`: always increments the counter; appends
and returns an account-locked event only when the incremented counter is at
least 5, otherwise returns `null` (here `none`). -/
def User.recordFailedLogin (u : User) (ipAddress : String) (now : Nat) :
    User × Option DomainEvent :=
  let u1 := { u with
                failedLoginAttempts := u.failedLoginAttempts + 1
                lastFailedLogin := some now
                lastIp := some ipAddress
                updatedAt := now }
  if u1.failedLoginAttempts ≥ 5 then
    let e : DomainEvent := ⟨"UserAccountLocked"⟩
    ({ u1 with domainEvents := u1.domainEvents ++ [e] }, some e)
  else
    (u1, none)

/-- `recordSuccessfulLogin(ipAddress)`. -/
def User.recordSuccessfulLogin (u : User) (ipAddress : String) (now : Nat) :
    User × DomainEvent :=
  let e : DomainEvent := ⟨"UserLoggedIn"⟩
  ({ u with
      failedLoginAttempts := 0
      lastFailedLogin := none
      lastLogin := some now
      lastIp := some ipAddress
      updatedAt := now
      domainEvents := u.domainEvents ++ [e] }, e)

/-- `changePassword(newPasswordHash)`: pushes the current hash (when set)
onto the history, keeps only the last 5 entries, installs the new hash. -/
def User.changePassword (u : User) (newPasswordHash : String) (now : Nat) :
    User × DomainEvent :=
  let hist :=
    match u.passwordHash with
    | some h => u.passwordHistory ++ [⟨h, now⟩]
    | none => u.passwordHistory
  let e : DomainEvent := ⟨"UserPasswordChanged"⟩
  ({ u with
      passwordHistory := sliceLast5 hist
      passwordHash := some newPasswordHash
      passwordChangedAt := some now
      updatedAt := now
      domainEvents := u.domainEvents ++ [e] }, e)

/-- `reactivate()`: no-op returning `null` when already active, otherwise
restores active status and clears the deletion/deactivation stamps. -/
def User.reactivate (u : User) (now : Nat) : User × Option DomainEvent :=
  if u.status == .active then
    (u, none)
  else
    let e : DomainEvent := ⟨"UserReactivated"⟩
    ({ u with
        status := .active
        deactivatedAt := none
        pendingDeletionAt := none
        updatedAt := now
        domainEvents := u.domainEvents ++ [e] }, some e)

/-- The `UserSession` domain entity (entities/UserSession.js).  Session and
device identifiers and refresh-token hashes are modelled as `Nat`; fields no
claim reads (ip, user agent, location, lastActiveAt) are dropped. -/
structure Session where
  userId : Nat
  sessionId : Nat
  refreshToken : Nat
  deviceId : Nat
  isActive : Bool := true
  refreshIssuedAt : Nat := 0
  expiresAt : Nat
  revokedAt : Option Nat := none
  domainEvents : List DomainEvent := []
deriving DecidableEq, Repr

/-- `isExpired()`: `new Date() > this.expiresAt`. -/
def Session.isExpired (s : Session) (now : Nat) : Bool :=
  now > s.expiresAt

/-- `isRevoked()`: a revocation timestamp is set. -/
def Session.isRevoked (s : Session) : Bool :=
  s.revokedAt.isSome

/-- `isValid()`: active, not expired, not revoked. -/
def Session.isValid (s : Session) (now : Nat) : Bool :=
  s.isActive && !(s.isExpired now) && !s.isRevoked

/-- `canBeRevoked()`: active and not yet revoked. -/
def Session.canBeRevoked (s : Session) : Bool :=
  s.isActive && !s.isRevoked

/-- `revoke(reason)`: terminal transition to the revoked state. -/
def Session.revoke (s : Session) (reason : String) (now : Nat) :
    Except String (Session × DomainEvent) :=
  if !s.canBeRevoked then
    .error "Session cannot be revoked"
  else
    let e : DomainEvent := ⟨"SessionRevoked"⟩
    .ok ({ s with
            isActive := false
            revokedAt := some now
            domainEvents := s.domainEvents ++ [e] }, e)

/-- `updateRefreshToken(newRefreshToken, newExpiresAt)`: rotates the stored
refresh-token hash in place on the same session id. -/
def Session.updateRefreshToken (s : Session) (newRefreshToken newExpiresAt now : Nat) :
    Session × DomainEvent :=
  let e : DomainEvent := ⟨"SessionRefreshTokenUpdated"⟩
  ({ s with
      refreshToken := newRefreshToken
      refreshIssuedAt := now
      expiresAt := newExpiresAt
      domainEvents := s.domainEvents ++ [e] }, e)

/-! ### OTP verification (MockOtpAdapter backed by the cache service) -/

/-- Stored OTP challenge data (the `otpData` object of `MockOtpAdapter.sendOtp`). -/
structure OtpData where
  phone : String
  countryCode : String
  otpType : String
  userId : Option Nat := none
  otpCode : String
  attempts : Nat := 0
  createdAt : Nat := 0
  expiresAt : Nat
deriving DecidableEq, Repr

/-- A cache slot: stored value plus absolute cache-expiry time derived from
the TTL the value was set with. -/
structure CacheEntry where
  value : OtpData
  cacheExpiresAt : Nat
deriving DecidableEq, Repr

/-- The expiring key-value store behind `cacheService`, keyed by
verification id. -/
abbrev OtpStore := List (String × CacheEntry)

/-- `cacheService.get`: the stored value, as long as its TTL has not
elapsed (expired entries behave as missing). -/
def cacheGet (store : OtpStore) (key : String) (now : Nat) : Option OtpData :=
  match store.find? (fun kv => kv.1 == key) with
  | some kv => if now < kv.2.cacheExpiresAt then some kv.2.value else none
  | none => none

/-- `cacheService.set` with a TTL in seconds. -/
def cacheSet (store : OtpStore) (key : String) (d : OtpData) (ttlSecs : Nat)
    (now : Nat) : OtpStore :=
  (key, ⟨d, now + ttlSecs * 1000⟩) :: store.filter (fun kv => !(kv.1 == key))

/-- `cacheService.delete`. -/
def cacheDelete (store : OtpStore) (key : String) : OtpStore :=
  store.filter (fun kv => !(kv.1 == key))

/-- `MockOtpAdapter.verifyOtp(verificationId, otpCode, phoneHash)`.
`hashPhone` models the sha256 `_hashPhone` helper; `maxAttempts` is the
configured limit (3 by default).  Returns the result together with the
updated store. -/
def verifyOtp (hashPhone : String → String) (maxAttempts : Nat)
    (store : OtpStore) (verificationId otpCode phoneHash : String)
    (now : Nat) : Except String Bool × OtpStore :=
  match cacheGet store verificationId now with
  | none => (.error "Invalid or expired verification ID", store)
  | some d =>
    if now > d.expiresAt then
      (.error "OTP has expired", cacheDelete store verificationId)
    else if d.attempts ≥ maxAttempts then
      (.error "Maximum verification attempts exceeded", cacheDelete store verificationId)
    else if d.otpCode ≠ otpCode then
      let d2 := { d with attempts := d.attempts + 1 }
      (.error "Invalid OTP code",
        cacheSet store verificationId d2 ((d.expiresAt - now) / 1000) now)
    else if hashPhone d.phone ≠ phoneHash then
      (.error "Phone number mismatch", store)
    else
      (.ok true, cacheDelete store verificationId)

/-! ### Token issuing and the refresh-token exchange -/

/-- The `type` discriminator claim of issued JWTs. -/
inductive TokenType
  | access
  | refresh
  | password_reset
deriving DecidableEq, BEq, Repr

/-- A signed JWT as the verifier sees it: its payload claims, expiry, and
the random `jti` (modelled as `nonce`) that makes every issued token
distinct.  Only well-signed tokens are representable; a garbled string
never reaches the session logic. -/
structure Token where
  userId : Nat
  sessionId : Nat
  deviceId : Nat
  tokenType : TokenType
  exp : Nat
  nonce : Nat
deriving DecidableEq, Repr

/-- `clockTolerance` of the JWT config (30 s), in milliseconds. -/
def clockToleranceMs : Nat := 30000

/-- Default access-token expiry, 30 minutes. -/
def accessTokenExpiryMs : Nat := 1800000

/-- Default refresh-token expiry, 7 days. -/
def refreshTokenExpiryMs : Nat := 7 * dayMs

/-- `JwtServiceImpl.verifyRefreshToken`: expiry is checked by `jwt.verify`
(with clock tolerance) and surfaces as its own message; a wrong `type`
discriminator throws inside the `try` block and is re-thrown as the generic
verification failure. -/
def verifyRefreshToken (tok : Token) (now : Nat) : Except String Token :=
  if now ≥ tok.exp + clockToleranceMs then
    .error "Refresh token has expired"
  else if tok.tokenType ≠ .refresh then
    .error "Refresh token verification failed"
  else
    .ok tok

/-- The access/refresh pair built by `generateTokenPair`; `nonce` and
`nonce + 1` model the two fresh `jti` values. -/
structure TokenPair where
  accessTok : Token
  refreshTok : Token
  refreshExpiresAt : Nat
deriving DecidableEq, Repr

/-- `JwtServiceImpl.generateTokenPair`. -/
def generateTokenPair (userId sessionId deviceId now nonce : Nat) : TokenPair :=
  { accessTok := ⟨userId, sessionId, deviceId, .access, now + accessTokenExpiryMs, nonce⟩
    refreshTok := ⟨userId, sessionId, deviceId, .refresh, now + refreshTokenExpiryMs, nonce + 1⟩
    refreshExpiresAt := now + refreshTokenExpiryMs }

/-- `SessionMySQLAdapter.findBySessionId`: lookup by public session id,
restricted to `is_active` rows. -/
def findBySessionId (sessions : List Session) (sid : Nat) : Option Session :=
  sessions.find? (fun s => s.sessionId == sid && s.isActive)

/-- Repository `save` for sessions: replaces the row with the same session
id, or inserts when absent. -/
def saveSession (sessions : List Session) (s : Session) : List Session :=
  if sessions.any (fun x => x.sessionId == s.sessionId) then
    sessions.map (fun x => if x.sessionId == s.sessionId then s else x)
  else
    sessions ++ [s]

/-- `AuthenticationApplicationService.refreshToken`: verify the refresh
JWT, load the session by the embedded session id, reject missing/invalid
sessions, issue a fresh pair, rotate the stored refresh-token hash, save,
then publish.  `hashTok` models `encryptionService.hash` applied to the new
refresh token; `nonce` feeds the fresh `jti` values.  Returns the new pair,
the saved session list and the published events. -/
def refreshTokenUseCase (hashTok : Token → Nat) (sessions : List Session)
    (tok : Token) (now nonce : Nat) :
    Except String (TokenPair × List Session × List DomainEvent) :=
  match verifyRefreshToken tok now with
  | .error e => .error e
  | .ok payload =>
    match findBySessionId sessions payload.sessionId with
    | none => .error "Invalid session"
    | some session =>
      if !(session.isValid now) then
        .error "Invalid session"
      else
        let newTokens := generateTokenPair payload.userId session.sessionId
          payload.deviceId now nonce
        let rotated := session.updateRefreshToken (hashTok newTokens.refreshTok)
          newTokens.refreshExpiresAt now
        .ok (newTokens, saveSession sessions rotated.1, [rotated.2])

/-! ### Login orchestration (`AuthenticationApplicationService.loginUser`)

The orchestration is modelled as a pure function returning the use-case
result together with the ordered list of persistence/publishing effects it
performed, so that publish-versus-save ordering can be stated.  Phone
validation and hashing happen before the cited region and are abstracted
into the `phoneHash` argument; `cmp` models the bcrypt
`passwordService.comparePassword`; `otpCheck` models the outcome of the
`otpService.verifyOtp` call when OTP credentials were supplied. -/

/-- One side effect of the orchestration layer, in execution order.
`revokeAllSessions` is the repository-level bulk revocation
(`sessionRepository.revokeAllForUser`, no domain events); `commitTx` is the
transaction commit. -/
inductive Effect
  | saveUser (u : User)
  | saveSession (s : Session)
  | publishEvent (e : DomainEvent)
  | revokeAllSessions (userId : Nat) (exceptSessionId : Option Nat)
  | commitTx
deriving DecidableEq, Repr

/-- `findByPhoneHash` of the user repository. -/
def findByPhoneHash (users : List User) (ph : String) : Option User :=
  users.find? (fun u => u.phoneHash == ph)

/-- `_revokeDeviceSessions`: revoke (save, then publish) each existing
session for the device that can still be revoked. -/
def revokeDeviceSessions (now : Nat) : List Session → List Effect
  | [] => []
  | s :: rest =>
    if s.canBeRevoked then
      match s.revoke "new_device_login" now with
      | .ok (s2, e) =>
        Effect.saveSession s2 :: Effect.publishEvent e :: revokeDeviceSessions now rest
      | .error _ => revokeDeviceSessions now rest
    else
      revokeDeviceSessions now rest

/-- `_createUserSession`: issue a token pair and create the session entity
holding the hash of the new refresh token.  The token payload built there
carries no session id (the entity generates its public id afterwards,
modelled by the fresh `sid`), so the pair is issued with session id 0.
`UserSession.create` appends no domain event, so the subsequent
`_publishDomainEvents(savedSession)` publishes nothing. -/
def createUserSession (hashTok : Token → Nat) (userId deviceId now nonce sid : Nat) :
    Session × TokenPair :=
  let tokens := generateTokenPair userId 0 deviceId now nonce
  let s : Session :=
    { userId := userId
      sessionId := sid
      refreshToken := hashTok tokens.refreshTok
      deviceId := deviceId
      isActive := true
      refreshIssuedAt := now
      expiresAt := tokens.refreshExpiresAt
      revokedAt := none
      domainEvents := [] }
  (s, tokens)

/-- Successful login result (user, session, login method). -/
structure LoginOutcome where
  user : User
  session : Session
  loginMethod : String
deriving DecidableEq, Repr

/-- `loginUser`: find the account by phone hash, gate on `canLogin`,
authenticate by password (or by the OTP check when no password was sent —
JS treats an empty password string as absent, collapsed here into `none`),
record failure or success on the aggregate, reactivate when needed, save,
revoke same-device sessions, create the new session, publish. -/
def loginUser (hashTok : Token → Nat) (cmp : String → Option String → Bool)
    (users : List User) (deviceSessions : List Session)
    (phoneHash : String) (password : Option String)
    (otpCheck : Option (Except String Bool)) (deviceId : Nat) (ip : String)
    (now nonce sid : Nat) : Except String LoginOutcome × List Effect :=
  match findByPhoneHash users phoneHash with
  | none => (.error "User not found", [])
  | some user =>
    if !(user.canLogin now) then
      (.error "User cannot login", [])
    else
      let authRes : Except String Bool :=
        match password with
        | some pw => .ok (cmp pw user.passwordHash)
        | none =>
          match otpCheck with
          | some (.ok _) => .ok true
          | some (.error e) => .error e
          | none => .ok false
      match authRes with
      | .error e => (.error e, [])
      | .ok authSuccess =>
        if !authSuccess then
          let failed := user.recordFailedLogin ip now
          let lockEffs :=
            match failed.2 with
            | some e => [Effect.publishEvent e]
            | none => []
          (.error "Invalid credentials", Effect.saveUser failed.1 :: lockEffs)
        else
          let logged := user.recordSuccessfulLogin ip now
          let reactivated :=
            if logged.1.status == .pending_deletion || logged.1.status == .deactivated then
              match logged.1.reactivate now with
              | (u2, some e) => (u2, [Effect.publishEvent e])
              | (u2, none) => (u2, [])
            else
              (logged.1, [])
          let newSession :=
            (createUserSession hashTok reactivated.1.id deviceId now nonce sid).1
          let effs :=
            reactivated.2 ++ [Effect.saveUser reactivated.1]
              ++ revokeDeviceSessions now deviceSessions
              ++ [Effect.saveSession newSession]
              ++ [Effect.publishEvent logged.2]
          (.ok ⟨reactivated.1, newSession,
              if password.isSome then "password" else "otp"⟩, effs)

/-- `userRepository.findById`: lookup by internal id. -/
def findById (users : List User) (userId : Nat) : Option User :=
  users.find? (fun u => u.id == userId)

/-- `UserApplicationService.changePassword`: verify the current password,
validate the new one, reject history reuse, mutate the aggregate, save,
bulk-revoke the other sessions, commit, then publish.  `cmp`, `validatePw`,
`isReused` and `hashPw` model the password-service collaborator. -/
def changePasswordUseCase (cmp : String → Option String → Bool)
    (validatePw : String → Except String Unit)
    (isReused : String → List HistEntry → Bool) (hashPw : String → String)
    (users : List User) (userId : Nat) (currentPw newPw : String)
    (sessionId : Option Nat) (now : Nat) : Except String Bool × List Effect :=
  match findById users userId with
  | none => (.error "User not found", [])
  | some user =>
    if !(cmp currentPw user.passwordHash) then
      (.error "Current password is incorrect", [])
    else
      match validatePw newPw with
      | .error e => (.error e, [])
      | .ok _ =>
        if isReused newPw user.passwordHistory then
          (.error "Password cannot be reused", [])
        else
          let changed := user.changePassword (hashPw newPw) now
          (.ok true,
            [Effect.saveUser changed.1,
             Effect.revokeAllSessions userId sessionId,
             Effect.commitTx,
             Effect.publishEvent changed.2])

/-- `AuthenticationApplicationService.registerUser` (after phone
validation): reject an already-registered phone, verify the OTP, validate
the password, create the user (`User.create` appends no pending event) and
its session, commit; the subsequent drain of the pending-event lists of
the fresh aggregates publishes nothing. -/
def registerUserUseCase (hashTok : Token → Nat)
    (otpCheck : Except String Bool) (validatePw : Except String Unit)
    (users : List User) (phoneHash hashedPw ip : String)
    (deviceId now nonce sid uid : Nat) :
    Except String (User × Session) × List Effect :=
  match findByPhoneHash users phoneHash with
  | some _ => (.error "Phone number already registered", [])
  | none =>
    match otpCheck with
    | .error e => (.error e, [])
    | .ok _ =>
      match validatePw with
      | .error e => (.error e, [])
      | .ok _ =>
        let newUser : User :=
          { id := uid, phoneHash := phoneHash, passwordHash := some hashedPw,
            lastIp := some ip, status := .active }
        let created := createUserSession hashTok uid deviceId now nonce sid
        (.ok (newUser, created.1),
          [Effect.saveUser newUser, Effect.saveSession created.1,
           Effect.commitTx])

/-! ### Auxiliary definitions used by the claim statements -/

/-- Repeated `changePassword` calls: fold over a list of (new hash, time)
pairs. -/
def foldChange (u : User) (l : List (String × Nat)) : User :=
  l.foldl (fun acc p => (acc.changePassword p.1 p.2).1) u

/-- Repeated `recordFailedLogin` calls: fold over a list of (ip, time)
pairs. -/
def foldFailed (u : User) (l : List (String × Nat)) : User :=
  l.foldl (fun acc p => (acc.recordFailedLogin p.1 p.2).1) u

/-- The password-history hash list produced by iterating the JS update
`history = (history ++ [current]).slice(-5)`, starting from history `H`
and current hash `cur`, over a list of new hashes. -/
def histAfter (H : List String) (cur : String) : List String → List String
  | [] => H
  | h :: rest => histAfter (sliceLast5 (H ++ [cur])) h rest

/-- The spec wording of `canLogin` ("true iff status == active ∧ not
currently suspended (suspension window not expired) ∧ failed-login counter
< lockout threshold"), stated independently of the code for comparison. -/
def canLoginSpec (u : User) (now : Nat) : Prop :=
  u.status = .active ∧
    ¬(u.status = .suspended ∧ ∃ t, u.suspensionUntil = some t ∧ now < t) ∧
    u.failedLoginAttempts < 5

/-- Is this effect a save of the user aggregate? -/
def Effect.isUserSave : Effect → Bool
  | .saveUser _ => true
  | _ => false

/-- Is this effect a save of a session aggregate? -/
def Effect.isSessionSave : Effect → Bool
  | .saveSession _ => true
  | _ => false

/-- Event types produced by mutations of the `User` aggregate. -/
def userEventTypes : List String :=
  ["UserSuspended", "UserUnsuspended", "UserVerified", "UserDeactivated",
   "UserScheduledForDeletion", "UserAccountLocked", "UserLoggedIn",
   "UserPasswordChanged", "UserReactivated"]

/-- Event types produced by mutations of the `UserSession` aggregate. -/
def sessionEventTypes : List String :=
  ["SessionRevoked", "SessionActivityUpdated", "SessionExtended",
   "SessionRefreshTokenUpdated"]

/-- Does the effect trace publish one of the given event types strictly
before the first save recognised by `isSave`?  This is the violation
witnessed when an event is published before the state it describes is
persisted. -/
def publishBeforeFirstSave (isSave : Effect → Bool) (evts : List String) :
    List Effect → Bool
  | [] => false
  | eff :: rest =>
    if isSave eff then
      false
    else
      match eff with
      | .publishEvent e =>
        evts.contains e.eventType || publishBeforeFirstSave isSave evts rest
      | _ => publishBeforeFirstSave isSave evts rest

instance : LawfulBEq UStatus where
  eq_of_beq := by
    intro a b h
    cases a <;> cases b <;> first
      | rfl
      | exact absurd h (by decide)
  rfl := by intro a; cases a <;> rfl

/-- The user carried by a successful entity operation, or the fallback on
error; used to state properties of `suspend`/`unsuspend` results without
existential quantifiers. -/
def okUser (r : Except String (User × DomainEvent)) (dflt : User) : User :=
  match r with
  | .ok (v, _) => v
  | .error _ => dflt

/-- The saved session list of a successful refresh exchange, or the
fallback on error. -/
def okSessions (r : Except String (TokenPair × List Session × List DomainEvent))
    (dflt : List Session) : List Session :=
  match r with
  | .ok (_, ss, _) => ss
  | .error _ => dflt

/-! ## Helper lemmas -/

theorem cacheGet_cacheSet_self (st : OtpStore) (k : String) (v : OtpData)
    (ttl now now2 : Nat) :
    cacheGet (cacheSet st k v ttl now) k now2 =
      if now2 < now + ttl * 1000 then some v else none := by
  simp [cacheGet, cacheSet, List.find?]

theorem cacheGet_cacheDelete_self (st : OtpStore) (k : String) (now2 : Nat) :
    cacheGet (cacheDelete st k) k now2 = none := by
  unfold cacheGet cacheDelete
  induction st with
  | nil => rfl
  | cons kv rest ih =>
    by_cases h : kv.1 == k
    · simp [List.filter, h] at ih ⊢
      exact ih
    · simp only [List.filter]
      rw [show (!(kv.1 == k)) = true by simp [h]]
      simp only [List.find?]
      rw [show (kv.1 == k) = false by simp_all]
      exact ih

theorem verifyOtp_notfound (hashPhone : String → String) (maxA : Nat)
    (st : OtpStore) (vid code ph : String) (t : Nat)
    (hget : cacheGet st vid t = none) :
    verifyOtp hashPhone maxA st vid code ph t =
      (.error "Invalid or expired verification ID", st) := by
  unfold verifyOtp
  rw [hget]

theorem verifyOtp_wrong_step (hashPhone : String → String) (maxA : Nat)
    (st : OtpStore) (vid wrong ph : String) (d : OtpData) (t : Nat)
    (hget : cacheGet st vid t = some d)
    (hexp : ¬ t > d.expiresAt)
    (hatt : ¬ d.attempts ≥ maxA)
    (hne : d.otpCode ≠ wrong) :
    verifyOtp hashPhone maxA st vid wrong ph t =
      (.error "Invalid OTP code",
        cacheSet st vid { d with attempts := d.attempts + 1 }
          ((d.expiresAt - t) / 1000) t) := by
  unfold verifyOtp
  rw [hget]
  dsimp only
  rw [if_neg hexp, if_neg hatt, if_pos hne]

theorem verifyOtp_exhausted (hashPhone : String → String) (maxA : Nat)
    (st : OtpStore) (vid code ph : String) (d : OtpData) (t : Nat)
    (hget : cacheGet st vid t = some d)
    (hexp : ¬ t > d.expiresAt)
    (hatt : d.attempts ≥ maxA) :
    verifyOtp hashPhone maxA st vid code ph t =
      (.error "Maximum verification attempts exceeded", cacheDelete st vid) := by
  unfold verifyOtp
  rw [hget]
  dsimp only
  rw [if_neg hexp, if_pos hatt]

theorem verifyOtp_success (hashPhone : String → String) (maxA : Nat)
    (st : OtpStore) (vid code ph : String) (d : OtpData) (t : Nat)
    (hget : cacheGet st vid t = some d)
    (hexp : ¬ t > d.expiresAt)
    (hatt : ¬ d.attempts ≥ maxA)
    (hcode : d.otpCode = code)
    (hph : hashPhone d.phone = ph) :
    verifyOtp hashPhone maxA st vid code ph t = (.ok true, cacheDelete st vid) := by
  unfold verifyOtp
  rw [hget]
  dsimp only
  rw [if_neg hexp, if_neg hatt, if_neg (by rw [hcode]; exact fun h => h rfl),
    if_neg (by rw [hph]; exact fun h => h rfl)]

theorem verifyOtp_phone_mismatch (hashPhone : String → String) (maxA : Nat)
    (st : OtpStore) (vid code ph : String) (d : OtpData) (t : Nat)
    (hget : cacheGet st vid t = some d)
    (hexp : ¬ t > d.expiresAt)
    (hatt : ¬ d.attempts ≥ maxA)
    (hcode : d.otpCode = code)
    (hph : hashPhone d.phone ≠ ph) :
    verifyOtp hashPhone maxA st vid code ph t =
      (.error "Phone number mismatch", st) := by
  unfold verifyOtp
  rw [hget]
  dsimp only
  rw [if_neg hexp, if_neg hatt, if_neg (by rw [hcode]; exact fun h => h rfl),
    if_pos hph]

/-! ## Claim C3 -/

/-- C3: OTP attempt exhaustion.  For a stored challenge with attempt limit
3, three consecutive wrong-code verifies each fail with the invalid-code
error while incrementing the attempt counter and keeping the challenge
alive with its original expiry; the fourth verify, even with the correct
code, fails with the max-attempts error and purges the challenge from the
store. -/
theorem c3_otp_attempt_exhaustion
    (hashPhone : String → String) (store : OtpStore)
    (vid code wrong ph : String) (d : OtpData) (t1 t2 t3 t4 : Nat)
    (hget : cacheGet store vid t1 = some d)
    (hatt : d.attempts = 0)
    (hcode : d.otpCode = code)
    (hwrong : wrong ≠ code)
    (h12 : t1 ≤ t2) (h23 : t2 ≤ t3) (h34 : t3 ≤ t4)
    (hE : t4 + 1000 ≤ d.expiresAt) :
    (verifyOtp hashPhone 3 store vid wrong ph t1).1 = .error "Invalid OTP code" ∧
    cacheGet (verifyOtp hashPhone 3 store vid wrong ph t1).2 vid t2 =
      some { d with attempts := 1 } ∧
    (verifyOtp hashPhone 3 (verifyOtp hashPhone 3 store vid wrong ph t1).2
        vid wrong ph t2).1 = .error "Invalid OTP code" ∧
    (verifyOtp hashPhone 3 (verifyOtp hashPhone 3
        (verifyOtp hashPhone 3 store vid wrong ph t1).2
        vid wrong ph t2).2 vid wrong ph t3).1 = .error "Invalid OTP code" ∧
    (verifyOtp hashPhone 3 (verifyOtp hashPhone 3 (verifyOtp hashPhone 3
        (verifyOtp hashPhone 3 store vid wrong ph t1).2
        vid wrong ph t2).2 vid wrong ph t3).2 vid code ph t4).1 =
      .error "Maximum verification attempts exceeded" ∧
    (∀ t, cacheGet (verifyOtp hashPhone 3 (verifyOtp hashPhone 3
        (verifyOtp hashPhone 3 (verifyOtp hashPhone 3 store vid wrong ph t1).2
        vid wrong ph t2).2 vid wrong ph t3).2 vid code ph t4).2 vid t = none) := by
  have hne1 : d.otpCode ≠ wrong := by
    rw [hcode]; exact fun h => hwrong h.symm
  have e1 := verifyOtp_wrong_step hashPhone 3 store vid wrong ph d t1 hget
    (by omega) (by omega) hne1
  have g2 : cacheGet (verifyOtp hashPhone 3 store vid wrong ph t1).2 vid t2 =
      some { d with attempts := d.attempts + 1 } := by
    rw [e1]
    dsimp only
    rw [cacheGet_cacheSet_self, if_pos (by omega)]
  have e2 := verifyOtp_wrong_step hashPhone 3
    (verifyOtp hashPhone 3 store vid wrong ph t1).2 vid wrong ph
    { d with attempts := d.attempts + 1 } t2 g2
    (by dsimp only; omega) (by dsimp only; omega) (by dsimp only; exact hne1)
  have g3 : cacheGet (verifyOtp hashPhone 3
      (verifyOtp hashPhone 3 store vid wrong ph t1).2 vid wrong ph t2).2 vid t3 =
      some { d with attempts := d.attempts + 1 + 1 } := by
    rw [e2]
    dsimp only
    rw [cacheGet_cacheSet_self, if_pos (by omega)]
  have e3 := verifyOtp_wrong_step hashPhone 3
    (verifyOtp hashPhone 3 (verifyOtp hashPhone 3 store vid wrong ph t1).2
      vid wrong ph t2).2 vid wrong ph
    { d with attempts := d.attempts + 1 + 1 } t3 g3
    (by dsimp only; omega) (by dsimp only; omega) (by dsimp only; exact hne1)
  have g4 : cacheGet (verifyOtp hashPhone 3 (verifyOtp hashPhone 3
      (verifyOtp hashPhone 3 store vid wrong ph t1).2 vid wrong ph t2).2
      vid wrong ph t3).2 vid t4 =
      some { d with attempts := d.attempts + 1 + 1 + 1 } := by
    rw [e3]
    dsimp only
    rw [cacheGet_cacheSet_self, if_pos (by omega)]
  have e4 := verifyOtp_exhausted hashPhone 3
    (verifyOtp hashPhone 3 (verifyOtp hashPhone 3
      (verifyOtp hashPhone 3 store vid wrong ph t1).2 vid wrong ph t2).2
      vid wrong ph t3).2 vid code ph
    { d with attempts := d.attempts + 1 + 1 + 1 } t4 g4
    (by dsimp only; omega) (by dsimp only; omega)
  refine ⟨by rw [e1], by rw [g2, hatt], by rw [e2], by rw [e3], by rw [e4],
    fun t => ?_⟩
  rw [e4]
  exact cacheGet_cacheDelete_self _ _ _

/-- Witness for C3 at a concrete challenge: code 123456, wrong code 000000,
expiry 300 s, four calls at times 0, 1, 2, 3: the first wrong-code call
fails with the invalid-code error and the fourth call with the correct
code fails with the max-attempts error. -/
theorem c3_otp_attempt_exhaustion_witness :
    (verifyOtp id 3
      [("v1", ⟨{ phone := "p", countryCode := "86", otpType := "registration",
                 otpCode := "123456", expiresAt := 300000 }, 300000⟩)]
      "v1" "000000" "p" 0).1 = .error "Invalid OTP code" ∧
    (verifyOtp id 3 (verifyOtp id 3 (verifyOtp id 3 (verifyOtp id 3
      [("v1", ⟨{ phone := "p", countryCode := "86", otpType := "registration",
                 otpCode := "123456", expiresAt := 300000 }, 300000⟩)]
      "v1" "000000" "p" 0).2 "v1" "000000" "p" 1).2 "v1" "000000" "p" 2).2
      "v1" "123456" "p" 3).1 = .error "Maximum verification attempts exceeded" := by
  have h := c3_otp_attempt_exhaustion id
    [("v1", ⟨{ phone := "p", countryCode := "86", otpType := "registration",
               otpCode := "123456", expiresAt := 300000 }, 300000⟩)]
    "v1" "123456" "000000" "p"
    { phone := "p", countryCode := "86", otpType := "registration",
      otpCode := "123456", expiresAt := 300000 }
    0 1 2 3 rfl rfl rfl (by decide) (by decide) (by decide) (by decide) (by decide)
  exact ⟨h.1, h.2.2.2.2.1⟩

/-! ## Claim C4 -/

/-- C4: OTP verification is single-use.  A fully successful verify returns
success and purges the challenge; any later verify with the same
verification id and the correct code fails with the challenge-not-found
error. -/
theorem c4_otp_single_use
    (hashPhone : String → String) (maxA : Nat) (store : OtpStore)
    (vid code ph : String) (d : OtpData) (t1 : Nat)
    (hget : cacheGet store vid t1 = some d)
    (hexp : ¬ t1 > d.expiresAt)
    (hatt : ¬ d.attempts ≥ maxA)
    (hcode : d.otpCode = code)
    (hph : hashPhone d.phone = ph) :
    verifyOtp hashPhone maxA store vid code ph t1 =
      (.ok true, cacheDelete store vid) ∧
    ∀ t2, (verifyOtp hashPhone maxA
        (verifyOtp hashPhone maxA store vid code ph t1).2 vid code ph t2).1 =
      .error "Invalid or expired verification ID" := by
  have e1 := verifyOtp_success hashPhone maxA store vid code ph d t1
    hget hexp hatt hcode hph
  refine ⟨e1, fun t2 => ?_⟩
  rw [e1]
  dsimp only
  rw [verifyOtp_notfound hashPhone maxA (cacheDelete store vid) vid code ph t2
    (cacheGet_cacheDelete_self store vid t2)]

/-- Witness for C4 at a concrete challenge: the first verify succeeds and
purges, the second verify at time 1 with the same id and code fails with
the challenge-not-found error. -/
theorem c4_otp_single_use_witness :
    verifyOtp id 3
      [("v1", ⟨{ phone := "p", countryCode := "86", otpType := "login",
                 otpCode := "123456", expiresAt := 300000 }, 300000⟩)]
      "v1" "123456" "p" 0 =
      (.ok true, cacheDelete
        [("v1", ⟨{ phone := "p", countryCode := "86", otpType := "login",
                   otpCode := "123456", expiresAt := 300000 }, 300000⟩)] "v1") ∧
    (verifyOtp id 3 (verifyOtp id 3
      [("v1", ⟨{ phone := "p", countryCode := "86", otpType := "login",
                 otpCode := "123456", expiresAt := 300000 }, 300000⟩)]
      "v1" "123456" "p" 0).2 "v1" "123456" "p" 1).1 =
      .error "Invalid or expired verification ID" := by
  have h := c4_otp_single_use id 3
    [("v1", ⟨{ phone := "p", countryCode := "86", otpType := "login",
               otpCode := "123456", expiresAt := 300000 }, 300000⟩)]
    "v1" "123456" "p"
    { phone := "p", countryCode := "86", otpType := "login",
      otpCode := "123456", expiresAt := 300000 }
    0 rfl (by decide) (by decide) rfl rfl
  exact ⟨h.1, h.2 1⟩

/-! ## Claim C10 -/

/-- C10: a phone-hash-mismatch failure (correct code, wrong expected phone
hash) leaves the stored challenge untouched — not purged, attempt counter
not incremented — so a later verify with the same id, the same code and
the correct phone hash still succeeds. -/
theorem c10_phone_mismatch_preserves_challenge
    (hashPhone : String → String) (maxA : Nat) (store : OtpStore)
    (vid code ph1 : String) (d : OtpData) (t1 t2 : Nat)
    (hget : cacheGet store vid t1 = some d)
    (hexp1 : ¬ t1 > d.expiresAt)
    (hatt : ¬ d.attempts ≥ maxA)
    (hcode : d.otpCode = code)
    (hph : hashPhone d.phone ≠ ph1)
    (hget2 : cacheGet store vid t2 = some d)
    (hexp2 : ¬ t2 > d.expiresAt) :
    verifyOtp hashPhone maxA store vid code ph1 t1 =
      (.error "Phone number mismatch", store) ∧
    (verifyOtp hashPhone maxA
        (verifyOtp hashPhone maxA store vid code ph1 t1).2
        vid code (hashPhone d.phone) t2).1 = .ok true := by
  have e1 := verifyOtp_phone_mismatch hashPhone maxA store vid code ph1 d t1
    hget hexp1 hatt hcode hph
  refine ⟨e1, ?_⟩
  rw [e1]
  dsimp only
  rw [verifyOtp_success hashPhone maxA store vid code (hashPhone d.phone) d t2
    hget2 hexp2 hatt hcode rfl]

/-- Witness for C10 at a concrete challenge: the mismatch call at time 0
returns the phone-mismatch error with the store unchanged, and the retry
at time 1 with the correct phone hash succeeds. -/
theorem c10_phone_mismatch_preserves_challenge_witness :
    verifyOtp (fun s => s ++ "H") 3
      [("v1", ⟨{ phone := "p", countryCode := "86", otpType := "login",
                 otpCode := "123456", expiresAt := 300000 }, 300000⟩)]
      "v1" "123456" "WRONG" 0 =
      (.error "Phone number mismatch",
        [("v1", ⟨{ phone := "p", countryCode := "86", otpType := "login",
                   otpCode := "123456", expiresAt := 300000 }, 300000⟩)]) ∧
    (verifyOtp (fun s => s ++ "H") 3
      (verifyOtp (fun s => s ++ "H") 3
        [("v1", ⟨{ phone := "p", countryCode := "86", otpType := "login",
                   otpCode := "123456", expiresAt := 300000 }, 300000⟩)]
        "v1" "123456" "WRONG" 0).2 "v1" "123456" "pH" 1).1 = .ok true := by
  have h := c10_phone_mismatch_preserves_challenge (fun s => s ++ "H") 3
    [("v1", ⟨{ phone := "p", countryCode := "86", otpType := "login",
               otpCode := "123456", expiresAt := 300000 }, 300000⟩)]
    "v1" "123456" "WRONG"
    { phone := "p", countryCode := "86", otpType := "login",
      otpCode := "123456", expiresAt := 300000 }
    0 1 rfl (by decide) (by decide) rfl (by decide) rfl (by decide)
  exact h

/-! ## Claim C5 -/

theorem sliceLast5_of_length_le {α : Type} (l : List α) (h : l.length ≤ 5) :
    sliceLast5 l = l := by
  unfold sliceLast5
  rw [Nat.sub_eq_zero_of_le h, List.drop_zero]

theorem length_sliceLast5 {α : Type} (l : List α) :
    (sliceLast5 l).length = min l.length 5 := by
  unfold sliceLast5
  rw [List.length_drop]
  omega

theorem sliceLast5_cons_of_ge {α : Type} (x : α) (l : List α) (h : 5 ≤ l.length) :
    sliceLast5 (x :: l) = sliceLast5 l := by
  unfold sliceLast5
  have hl : (x :: l).length - 5 = (l.length - 5) + 1 := by
    simp only [List.length_cons]
    omega
  rw [hl, List.drop_succ_cons]

theorem sliceLast5_append_of_ge {α : Type} (a b : List α) (h : 5 ≤ b.length) :
    sliceLast5 (a ++ b) = sliceLast5 b := by
  induction a with
  | nil => rfl
  | cons x a2 ih =>
    rw [List.cons_append, sliceLast5_cons_of_ge x (a2 ++ b)
      (by simp only [List.length_append]; omega), ih]

theorem sliceLast5_idem_append {α : Type} (a b : List α) :
    sliceLast5 (sliceLast5 a ++ b) = sliceLast5 (a ++ b) := by
  induction a with
  | nil => rfl
  | cons x a2 ih =>
    by_cases h : 5 ≤ a2.length
    · rw [sliceLast5_cons_of_ge x a2 h, ih, List.cons_append,
        sliceLast5_cons_of_ge x (a2 ++ b)
          (by simp only [List.length_append]; omega)]
    · rw [sliceLast5_of_length_le (x :: a2) (by simp only [List.length_cons]; omega)]

theorem map_sliceLast5 {α β : Type} (f : α → β) (l : List α) :
    (sliceLast5 l).map f = sliceLast5 (l.map f) := by
  unfold sliceLast5
  rw [List.map_drop, List.length_map]

theorem histAfter_eq_sliceLast5 :
    ∀ (l : List String) (H : List String) (cur : String), l ≠ [] →
      histAfter H cur l = sliceLast5 (H ++ cur :: l.dropLast)
  | [], _, _, h => absurd rfl h
  | [h1], H, cur, _ => by
    unfold histAfter histAfter
    rfl
  | h1 :: h2 :: rest, H, cur, _ => by
    unfold histAfter
    rw [histAfter_eq_sliceLast5 (h2 :: rest) (sliceLast5 (H ++ [cur])) h1
      (List.cons_ne_nil h2 rest)]
    rw [sliceLast5_idem_append (H ++ [cur]) (h1 :: (h2 :: rest).dropLast),
      List.append_assoc]
    rfl

theorem foldChange_hashes :
    ∀ (hs : List (String × Nat)) (u : User) (cur : String),
      u.passwordHash = some cur →
      (foldChange u hs).passwordHistory.map HistEntry.hash =
        histAfter (u.passwordHistory.map HistEntry.hash) cur (hs.map Prod.fst)
  | [], u, cur, _ => rfl
  | p :: rest, u, cur, hpw => by
    show (foldChange (u.changePassword p.1 p.2).1 rest).passwordHistory.map
        HistEntry.hash = _
    rw [foldChange_hashes rest (u.changePassword p.1 p.2).1 p.1 rfl]
    have hhist : (u.changePassword p.1 p.2).1.passwordHistory =
        sliceLast5 (u.passwordHistory ++ [⟨cur, p.2⟩]) := by
      unfold User.changePassword
      rw [hpw]
    rw [hhist, map_sliceLast5, List.map_append]
    rfl

/-- C5: password-history invariant.  Each `changePassword` appends the
current hash and caps the history at 5 entries (oldest evicted); after
N ≥ 6 successive calls the history holds exactly the 5 most recent prior
hashes — the last five of `h0, h1, …, h(N-1)` in order. -/
theorem c5_password_history_invariant
    (u : User) (h0 : String) (hpw : u.passwordHash = some h0)
    (hs : List (String × Nat)) (hlen : 6 ≤ hs.length) :
    ((foldChange u hs).passwordHistory).length = 5 ∧
    (foldChange u hs).passwordHistory.map HistEntry.hash =
      sliceLast5 (h0 :: (hs.map Prod.fst).dropLast) ∧
    (∀ (v : User) (nh : String) (now : Nat),
      ((v.changePassword nh now).1.passwordHistory).length ≤ 5) := by
  have hne : hs.map Prod.fst ≠ [] := by
    intro h
    have := congrArg List.length h
    simp only [List.length_map, List.length_nil] at this
    omega
  have hmap := foldChange_hashes hs u h0 hpw
  rw [histAfter_eq_sliceLast5 (hs.map Prod.fst)
    (u.passwordHistory.map HistEntry.hash) h0 hne] at hmap
  have hlen2 : 5 ≤ (h0 :: (hs.map Prod.fst).dropLast).length := by
    simp only [List.length_cons, List.length_dropLast, List.length_map]
    omega
  rw [sliceLast5_append_of_ge _ _ hlen2] at hmap
  refine ⟨?_, hmap, ?_⟩
  · have := congrArg List.length hmap
    rw [List.length_map, length_sliceLast5] at this
    simp only [List.length_cons, List.length_dropLast, List.length_map] at this
    omega
  · intro v nh now
    cases hv : v.passwordHash <;>
      simp [User.changePassword, hv, length_sliceLast5]

/-- Witness for C5: starting from current hash h0, six changes to
h1 … h6 leave exactly the five entries h1 … h5 (h0 evicted). -/
theorem c5_password_history_invariant_witness :
    ((foldChange { phoneHash := "ph", passwordHash := some "h0" }
      [("h1", 1), ("h2", 2), ("h3", 3), ("h4", 4), ("h5", 5), ("h6", 6)]).passwordHistory).length = 5 ∧
    (foldChange { phoneHash := "ph", passwordHash := some "h0" }
      [("h1", 1), ("h2", 2), ("h3", 3), ("h4", 4), ("h5", 5), ("h6", 6)]).passwordHistory.map
        HistEntry.hash =
      sliceLast5 ("h0" ::
        ([("h1", 1), ("h2", 2), ("h3", 3), ("h4", 4), ("h5", 5), ("h6", 6)].map
          (Prod.fst (α := String) (β := Nat))).dropLast) := by
  have h := c5_password_history_invariant
    { phoneHash := "ph", passwordHash := some "h0" } "h0" rfl
    [("h1", 1), ("h2", 2), ("h3", 3), ("h4", 4), ("h5", 5), ("h6", 6)] (by decide)
  exact ⟨h.1, h.2.1⟩

/-! ## Claim C6 -/

/-- C6 counterexample: on a user with no failed logins yet,
`recordFailedLogin` appends no domain event at all (the account-locked
event only appears at the threshold), refuting the claim that every call
produces exactly one domain event. -/
theorem c6_counterexample :
    ¬((({ phoneHash := "ph", passwordHash := some "x" } : User).recordFailedLogin
        "1.2.3.4" 5).1.domainEvents.length =
      ({ phoneHash := "ph", passwordHash := some "x" } : User).domainEvents.length + 1) := by
  decide

/-- C6 as amended: `recordFailedLogin` increments the failed-login counter
by one and never changes `status`; it emits no domain event while the
incremented counter is below 5, and appends exactly one account-locked
event whenever the incremented counter is 5 or more. -/
theorem c6_record_failed_login_amended (u : User) (ip : String) (now : Nat) :
    (u.recordFailedLogin ip now).1.failedLoginAttempts = u.failedLoginAttempts + 1 ∧
    (u.recordFailedLogin ip now).1.status = u.status ∧
    (if u.failedLoginAttempts + 1 ≥ 5 then
      (u.recordFailedLogin ip now).1.domainEvents =
        u.domainEvents ++ [⟨"UserAccountLocked"⟩] ∧
      (u.recordFailedLogin ip now).2 = some ⟨"UserAccountLocked"⟩
    else
      (u.recordFailedLogin ip now).1.domainEvents = u.domainEvents ∧
      (u.recordFailedLogin ip now).2 = none) := by
  unfold User.recordFailedLogin
  dsimp only
  by_cases h : u.failedLoginAttempts + 1 ≥ 5
  · rw [if_pos h, if_pos h]
    exact ⟨rfl, rfl, rfl, rfl⟩
  · rw [if_neg h, if_neg h]
    exact ⟨rfl, rfl, rfl, rfl⟩

/-! ## Claim C7 -/

theorem recordFailedLogin_attempts (u : User) (ip : String) (now : Nat) :
    (u.recordFailedLogin ip now).1.failedLoginAttempts =
      u.failedLoginAttempts + 1 := by
  unfold User.recordFailedLogin
  dsimp only
  split <;> rfl

theorem foldFailed_attempts :
    ∀ (l : List (String × Nat)) (u : User),
      (foldFailed u l).failedLoginAttempts = u.failedLoginAttempts + l.length
  | [], _ => rfl
  | p :: rest, u => by
    show (foldFailed (u.recordFailedLogin p.1 p.2).1 rest).failedLoginAttempts = _
    rw [foldFailed_attempts rest, recordFailedLogin_attempts]
    simp only [List.length_cons]
    omega

/-- C7: `canLogin` is true exactly when the status is active, the user is
not inside an unexpired suspension window, and the failed-login counter is
below 5; five consecutive `recordFailedLogin` calls force it to false, and
a successful login resets the counter to zero. -/
theorem c7_can_login_iff :
    (∀ (u : User) (now : Nat), u.canLogin now = true ↔ canLoginSpec u now) ∧
    (∀ (u : User) (l : List (String × Nat)) (now : Nat), 5 ≤ l.length →
      (foldFailed u l).canLogin now = false) ∧
    (∀ (u : User) (ip : String) (now : Nat),
      (u.recordSuccessfulLogin ip now).1.failedLoginAttempts = 0) := by
  refine ⟨fun u now => ?_, fun u l now hl => ?_, fun u ip now => rfl⟩
  · cases hs : u.status <;> cases ht : u.suspensionUntil <;>
      simp [User.canLogin, canLoginSpec, User.isSuspended, User.isLocked, hs, ht] <;>
      omega
  · have h5 : 5 ≤ (foldFailed u l).failedLoginAttempts := by
      rw [foldFailed_attempts]
      omega
    simp [User.canLogin, User.isLocked, h5]

/-- Witness for C7: the equivalence at a fresh active user, lockout after
five failed logins, and counter reset on successful login, all at concrete
inputs. -/
theorem c7_can_login_iff_witness :
    (({ phoneHash := "ph", passwordHash := some "x" } : User).canLogin 0 = true ↔
      canLoginSpec { phoneHash := "ph", passwordHash := some "x" } 0) ∧
    (foldFailed { phoneHash := "ph", passwordHash := some "x" }
      [("i", 1), ("i", 2), ("i", 3), ("i", 4), ("i", 5)]).canLogin 99 = false ∧
    (({ phoneHash := "ph", passwordHash := some "x", failedLoginAttempts := 4 } : User).recordSuccessfulLogin
      "i" 7).1.failedLoginAttempts = 0 :=
  ⟨c7_can_login_iff.1 { phoneHash := "ph", passwordHash := some "x" } 0,
   c7_can_login_iff.2.1 { phoneHash := "ph", passwordHash := some "x" }
     [("i", 1), ("i", 2), ("i", 3), ("i", 4), ("i", 5)] 99 (by decide),
   c7_can_login_iff.2.2
     { phoneHash := "ph", passwordHash := some "x", failedLoginAttempts := 4 } "i" 7⟩

/-! ## Claim C8 -/

/-- C8: suspension status and the time-boxed window are decoupled.  After
`suspend(reason, 7, by)` the immediate `canLogin` is false; once the clock
reaches the suspension-until time `isSuspended` is false while `status`
stays suspended; only an explicit `unsuspend` restores active status. -/
theorem c8_suspension_decoupled
    (u : User) (reason adminId : String) (now : Nat)
    (h : u.status ≠ .suspended) :
    (u.suspend reason 7 adminId now).isOk = true ∧
    (okUser (u.suspend reason 7 adminId now) u).canLogin now = false ∧
    (okUser (u.suspend reason 7 adminId now) u).status = .suspended ∧
    (∀ t, now + 7 * dayMs ≤ t →
      (okUser (u.suspend reason 7 adminId now) u).isSuspended t = false) ∧
    (∀ (b2 : String) (t2 : Nat),
      ((okUser (u.suspend reason 7 adminId now) u).unsuspend b2 t2).isOk = true ∧
      (okUser ((okUser (u.suspend reason 7 adminId now) u).unsuspend b2 t2)
        u).status = .active) := by
  have hb : ¬((u.status == UStatus.suspended) = true) := by
    intro hb
    exact h (eq_of_beq hb)
  have e1 : u.suspend reason 7 adminId now =
      .ok ({ u with
              status := .suspended
              suspensionReason := some reason
              suspensionUntil := some (now + 7 * dayMs)
              updatedAt := now
              domainEvents := u.domainEvents ++ [⟨"UserSuspended"⟩] },
        (⟨"UserSuspended"⟩ : DomainEvent)) := by
    unfold User.suspend
    rw [if_neg hb]
  refine ⟨by rw [e1]; rfl, ?_, by rw [e1]; rfl, ?_, ?_⟩
  · rw [e1]
    simp [okUser, User.canLogin]
  · intro t ht
    rw [e1]
    simp only [okUser, User.isSuspended]
    simp only [Bool.and_eq_false_iff]
    right
    simp only [decide_eq_false_iff_not]
    omega
  · intro b2 t2
    have e2 : (okUser (u.suspend reason 7 adminId now) u).unsuspend b2 t2 =
        .ok ({ (okUser (u.suspend reason 7 adminId now) u) with
                status := .active
                suspensionReason := none
                suspensionUntil := none
                updatedAt := t2
                domainEvents := (okUser (u.suspend reason 7 adminId now) u).domainEvents ++
                  [⟨"UserUnsuspended"⟩] },
          (⟨"UserUnsuspended"⟩ : DomainEvent)) := by
      unfold User.unsuspend
      rw [if_neg (by rw [e1]; simp [okUser])]
    rw [e2]
    exact ⟨rfl, rfl⟩

/-- Witness for C8: a fresh active user suspended for 7 days at time 0 —
login denied immediately, `isSuspended` false at the 7-day mark with
status still suspended, and explicit unsuspend restoring active. -/
theorem c8_suspension_decoupled_witness :
    (({ phoneHash := "ph", passwordHash := some "x" } : User).suspend
      "abuse" 7 "admin" 0).isOk = true ∧
    (okUser (({ phoneHash := "ph", passwordHash := some "x" } : User).suspend
      "abuse" 7 "admin" 0) { phoneHash := "ph", passwordHash := some "x" }).canLogin 0 = false ∧
    (okUser (({ phoneHash := "ph", passwordHash := some "x" } : User).suspend
      "abuse" 7 "admin" 0) { phoneHash := "ph", passwordHash := some "x" }).status = .suspended ∧
    (okUser (({ phoneHash := "ph", passwordHash := some "x" } : User).suspend
      "abuse" 7 "admin" 0) { phoneHash := "ph", passwordHash := some "x" }).isSuspended
      (7 * dayMs) = false ∧
    ((okUser (({ phoneHash := "ph", passwordHash := some "x" } : User).suspend
      "abuse" 7 "admin" 0) { phoneHash := "ph", passwordHash := some "x" }).unsuspend
      "admin2" 9).isOk = true ∧
    (okUser ((okUser (({ phoneHash := "ph", passwordHash := some "x" } : User).suspend
      "abuse" 7 "admin" 0) { phoneHash := "ph", passwordHash := some "x" }).unsuspend
      "admin2" 9) { phoneHash := "ph", passwordHash := some "x" }).status = .active := by
  have h := c8_suspension_decoupled { phoneHash := "ph", passwordHash := some "x" }
    "abuse" "admin" 0 (by decide)
  exact ⟨h.1, h.2.1, h.2.2.1, h.2.2.2.1 (7 * dayMs) (by decide),
    (h.2.2.2.2 "admin2" 9).1, (h.2.2.2.2 "admin2" 9).2⟩

/-! ## Claim C2 -/

/-- C2 counterexample: with the same password-comparison function, a login
against an empty user store fails with the user-not-found error while a
login against a store holding the account but with a wrong password fails
with the invalid-credentials error — the two failing runs return different
errors, refuting uniformity. -/
theorem c2_counterexample :
    (loginUser (fun t => t.nonce) (fun pw h => h == some pw) [] []
      "ph1" (some "pw") none 3 "ip" 0 0 9).1 = .error "User not found" ∧
    (loginUser (fun t => t.nonce) (fun pw h => h == some pw)
      [{ phoneHash := "ph1", passwordHash := some "goodpw" }] []
      "ph1" (some "wrongpw") none 3 "ip" 0 0 9).1 = .error "Invalid credentials" ∧
    ("User not found" : String) ≠ "Invalid credentials" :=
  ⟨rfl, rfl, by decide⟩

/-- C2 as amended: authentication failures are distinguishable — when no
account matches the phone hash `loginUser` fails with the user-not-found
error, while a known account with a wrong password fails with the
invalid-credentials error. -/
theorem c2_auth_errors_distinguishable_amended :
    (∀ (hashTok : Token → Nat) (cmp : String → Option String → Bool)
      (users : List User) (deviceSessions : List Session) (ph : String)
      (pw : Option String) (otpCheck : Option (Except String Bool))
      (devId : Nat) (ip : String) (now nonce sid : Nat),
      findByPhoneHash users ph = none →
      (loginUser hashTok cmp users deviceSessions ph pw otpCheck devId ip
        now nonce sid).1 = .error "User not found") ∧
    (∀ (hashTok : Token → Nat) (cmp : String → Option String → Bool)
      (users : List User) (deviceSessions : List Session) (ph pw : String)
      (devId : Nat) (ip : String) (now nonce sid : Nat) (u : User),
      findByPhoneHash users ph = some u →
      u.canLogin now = true →
      cmp pw u.passwordHash = false →
      (loginUser hashTok cmp users deviceSessions ph (some pw) none devId ip
        now nonce sid).1 = .error "Invalid credentials") := by
  constructor
  · intro hashTok cmp users deviceSessions ph pw otpCheck devId ip now nonce sid hfind
    unfold loginUser
    rw [hfind]
  · intro hashTok cmp users deviceSessions ph pw devId ip now nonce sid u
      hfind hcan hcmp
    unfold loginUser
    rw [hfind]
    dsimp only
    rw [hcan, hcmp]
    simp

/-- Witness for C2 as amended, at concrete stores: unknown phone gives the
user-not-found error; known phone with wrong password gives the
invalid-credentials error. -/
theorem c2_auth_errors_distinguishable_amended_witness :
    (loginUser (fun t => t.nonce) (fun pw h => h == some pw) [] []
      "phX" (some "pw") none 3 "ip" 0 0 9).1 = .error "User not found" ∧
    (loginUser (fun t => t.nonce) (fun pw h => h == some pw)
      [{ phoneHash := "phX", passwordHash := some "good" }] []
      "phX" (some "bad") none 3 "ip" 0 0 9).1 = .error "Invalid credentials" :=
  ⟨c2_auth_errors_distinguishable_amended.1 (fun t => t.nonce)
      (fun pw h => h == some pw) [] [] "phX" (some "pw") none 3 "ip" 0 0 9 rfl,
   c2_auth_errors_distinguishable_amended.2 (fun t => t.nonce)
      (fun pw h => h == some pw)
      [{ phoneHash := "phX", passwordHash := some "good" }] [] "phX" "bad"
      3 "ip" 0 0 9 { phoneHash := "phX", passwordHash := some "good" }
      rfl rfl rfl⟩

/-! ## Claim C9 -/

theorem revoke_of_canBeRevoked (s : Session) (reason : String) (now : Nat)
    (hc : s.canBeRevoked = true) :
    s.revoke reason now =
      .ok ({ s with
              isActive := false
              revokedAt := some now
              domainEvents := s.domainEvents ++ [⟨"SessionRevoked"⟩] },
        (⟨"SessionRevoked"⟩ : DomainEvent)) := by
  unfold Session.revoke
  rw [if_neg (by rw [hc]; decide)]

theorem userScan_revoke_append (now : Nat) (rest : List Effect)
    (hrest : publishBeforeFirstSave Effect.isUserSave userEventTypes rest = false) :
    ∀ l : List Session,
      publishBeforeFirstSave Effect.isUserSave userEventTypes
        (revokeDeviceSessions now l ++ rest) = false
  | [] => by simpa using hrest
  | s :: l2 => by
    unfold revokeDeviceSessions
    cases hc : s.canBeRevoked with
    | false =>
      rw [if_neg (by decide)]
      exact userScan_revoke_append now rest hrest l2
    | true =>
      rw [if_pos rfl, revoke_of_canBeRevoked s "new_device_login" now hc]
      have h1 : userEventTypes.contains "SessionRevoked" = false := by decide
      simp only [List.cons_append, publishBeforeFirstSave, Effect.isUserSave,
        Bool.false_eq_true, if_false, h1, Bool.false_or]
      exact userScan_revoke_append now rest hrest l2

theorem sessionScan_revoke_append (now : Nat) (rest : List Effect)
    (hrest : publishBeforeFirstSave Effect.isSessionSave sessionEventTypes rest = false) :
    ∀ l : List Session,
      publishBeforeFirstSave Effect.isSessionSave sessionEventTypes
        (revokeDeviceSessions now l ++ rest) = false
  | [] => by simpa using hrest
  | s :: l2 => by
    unfold revokeDeviceSessions
    cases hc : s.canBeRevoked with
    | false =>
      rw [if_neg (by decide)]
      exact sessionScan_revoke_append now rest hrest l2
    | true =>
      rw [if_pos rfl, revoke_of_canBeRevoked s "new_device_login" now hc]
      simp only [List.cons_append, publishBeforeFirstSave, Effect.isSessionSave, if_true]

/-- C9: in the `loginUser` orchestration, domain events are never published
before the state change they describe has been saved: no user-aggregate
event is published before the first save of the user, and no
session-aggregate event is published before the first save of a session.
(The only branch that would publish before saving — reactivation — is
unreachable, since `canLogin` already requires active status.) -/
theorem c9_publish_after_save
    (hashTok : Token → Nat) (cmp : String → Option String → Bool)
    (users : List User) (deviceSessions : List Session) (ph : String)
    (pw : Option String) (otpCheck : Option (Except String Bool))
    (devId : Nat) (ip : String) (now nonce sid : Nat)
    (validatePw : String → Except String Unit)
    (isReused : String → List HistEntry → Bool) (hashPw : String → String)
    (userId : Nat) (currentPw newPw : String) (curSession : Option Nat)
    (otpCheck2 : Except String Bool) (validatePw2 : Except String Unit)
    (hashedPw : String) (uid : Nat) :
    (publishBeforeFirstSave Effect.isUserSave userEventTypes
      (loginUser hashTok cmp users deviceSessions ph pw otpCheck devId ip
        now nonce sid).2 = false ∧
    publishBeforeFirstSave Effect.isSessionSave sessionEventTypes
      (loginUser hashTok cmp users deviceSessions ph pw otpCheck devId ip
        now nonce sid).2 = false) ∧
    (publishBeforeFirstSave Effect.isUserSave userEventTypes
      (changePasswordUseCase cmp validatePw isReused hashPw users userId
        currentPw newPw curSession now).2 = false ∧
    publishBeforeFirstSave Effect.isSessionSave sessionEventTypes
      (changePasswordUseCase cmp validatePw isReused hashPw users userId
        currentPw newPw curSession now).2 = false) ∧
    (publishBeforeFirstSave Effect.isUserSave userEventTypes
      (registerUserUseCase hashTok otpCheck2 validatePw2 users ph hashedPw ip
        devId now nonce sid uid).2 = false ∧
    publishBeforeFirstSave Effect.isSessionSave sessionEventTypes
      (registerUserUseCase hashTok otpCheck2 validatePw2 users ph hashedPw ip
        devId now nonce sid uid).2 = false) := by
  refine ⟨?_, ?_, ?_⟩
  case refine_2 =>
    unfold changePasswordUseCase
    rcases hfindu : findById users userId with _ | u
    · exact ⟨rfl, rfl⟩
    · dsimp only
      cases hcmp : cmp currentPw u.passwordHash with
      | false => exact ⟨rfl, rfl⟩
      | true =>
        cases validatePw newPw with
        | error e => exact ⟨rfl, rfl⟩
        | ok _ =>
          dsimp only
          cases hreuse : isReused newPw u.passwordHistory with
          | true => exact ⟨rfl, rfl⟩
          | false =>
            constructor
            · simp [publishBeforeFirstSave, Effect.isUserSave]
            · have hpc : "UserPasswordChanged" ∉ sessionEventTypes := by decide
              have hev : (u.changePassword (hashPw newPw) now).2 =
                  ⟨"UserPasswordChanged"⟩ := rfl
              simp [publishBeforeFirstSave, Effect.isSessionSave, hev, hpc]
  case refine_3 =>
    unfold registerUserUseCase
    rcases hfindr : findByPhoneHash users ph with _ | u
    · cases otpCheck2 with
      | error e => exact ⟨rfl, rfl⟩
      | ok _ =>
        cases validatePw2 with
        | error e => exact ⟨rfl, rfl⟩
        | ok _ =>
          constructor
          · simp [publishBeforeFirstSave, Effect.isUserSave]
          · simp [publishBeforeFirstSave, Effect.isSessionSave, Effect.isUserSave]
    · exact ⟨rfl, rfl⟩
  case refine_1 =>
  have hLock : sessionEventTypes.contains "UserAccountLocked" = false := by decide
  have hLockMem : "UserAccountLocked" ∉ sessionEventTypes := by decide
  have failedUser : ∀ (v : User),
      publishBeforeFirstSave Effect.isUserSave userEventTypes
        (Effect.saveUser (v.recordFailedLogin ip now).1 ::
          (match (v.recordFailedLogin ip now).2 with
           | some e => [Effect.publishEvent e]
           | none => [])) = false := by
    intro v
    simp [publishBeforeFirstSave, Effect.isUserSave]
  have failedSession : ∀ (v : User),
      publishBeforeFirstSave Effect.isSessionSave sessionEventTypes
        (Effect.saveUser (v.recordFailedLogin ip now).1 ::
          (match (v.recordFailedLogin ip now).2 with
           | some e => [Effect.publishEvent e]
           | none => [])) = false := by
    intro v
    have hsnd : (v.recordFailedLogin ip now).2 = none ∨
        (v.recordFailedLogin ip now).2 = some ⟨"UserAccountLocked"⟩ := by
      unfold User.recordFailedLogin
      dsimp only
      split
      · right; rfl
      · left; rfl
    rcases hsnd with hsnd | hsnd <;>
      simp [hsnd, publishBeforeFirstSave, Effect.isSessionSave, hLock, hLockMem]
  unfold loginUser
  rcases hfind : findByPhoneHash users ph with _ | u
  · exact ⟨rfl, rfl⟩
  · dsimp only
    cases hcan : u.canLogin now with
    | false => exact ⟨rfl, rfl⟩
    | true =>
      have hact : u.status = .active := by
        unfold User.canLogin at hcan
        simp only [Bool.and_eq_true, beq_iff_eq] at hcan
        exact hcan.1.1
      have hcond :
          ((u.recordSuccessfulLogin ip now).1.status == UStatus.pending_deletion ||
            (u.recordSuccessfulLogin ip now).1.status == UStatus.deactivated) = false := by
        have hst : (u.recordSuccessfulLogin ip now).1.status = u.status := rfl
        rw [hst, hact]
        rfl
      have successScans :
          publishBeforeFirstSave Effect.isUserSave userEventTypes
            (Effect.saveUser (u.recordSuccessfulLogin ip now).1 ::
              (revokeDeviceSessions now deviceSessions ++
                (Effect.saveSession
                    (createUserSession hashTok (u.recordSuccessfulLogin ip now).1.id
                      devId now nonce sid).1 ::
                  [Effect.publishEvent (u.recordSuccessfulLogin ip now).2]))) = false ∧
          publishBeforeFirstSave Effect.isSessionSave sessionEventTypes
            (Effect.saveUser (u.recordSuccessfulLogin ip now).1 ::
              (revokeDeviceSessions now deviceSessions ++
                (Effect.saveSession
                    (createUserSession hashTok (u.recordSuccessfulLogin ip now).1.id
                      devId now nonce sid).1 ::
                  [Effect.publishEvent (u.recordSuccessfulLogin ip now).2]))) = false := by
        constructor
        · simp [publishBeforeFirstSave, Effect.isUserSave]
        · simp only [publishBeforeFirstSave, Effect.isSessionSave,
            Bool.false_eq_true, if_false]
          exact sessionScan_revoke_append now _
            (by simp [publishBeforeFirstSave, Effect.isSessionSave]) deviceSessions
      cases pw with
      | some p =>
        dsimp only
        cases hcmp : cmp p u.passwordHash with
        | false => exact ⟨failedUser u, failedSession u⟩
        | true =>
          rw [hcond]
          simpa using successScans
      | none =>
        cases otpCheck with
        | none =>
          dsimp only
          exact ⟨failedUser u, failedSession u⟩
        | some r =>
          cases r with
          | error e => exact ⟨rfl, rfl⟩
          | ok b =>
            dsimp only
            rw [hcond]
            simpa using successScans

/-! ## Claim C1 -/

theorem find_map_replace :
    ∀ (ss : List Session) (s2 : Session) (sid : Nat),
      s2.sessionId = sid → s2.isActive = true →
      (∃ x ∈ ss, x.sessionId = sid) →
      (ss.map (fun x => if x.sessionId == s2.sessionId then s2 else x)).find?
        (fun s => s.sessionId == sid && s.isActive) = some s2
  | [], _, _, _, _, hmem => by simp at hmem
  | x :: t, s2, sid, hsid, hact, hmem => by
    by_cases hx : (x.sessionId == s2.sessionId) = true
    · simp only [List.map_cons, if_pos hx]
      have hpred : ((fun s => s.sessionId == sid && s.isActive) s2) = true := by
        simp [hsid, hact]
      simp [List.find?, hpred]
    · simp only [List.map_cons, if_neg hx]
      have hpred : ((fun s => s.sessionId == sid && s.isActive) x) = false := by
        have : (x.sessionId == sid) = false := by
          rw [← hsid]
          exact Bool.eq_false_iff.mpr (fun hb => hx hb)
        simp [this]
      simp only [List.find?, hpred]
      apply find_map_replace t s2 sid hsid hact
      obtain ⟨y, hy, hysid⟩ := hmem
      rcases List.mem_cons.mp hy with rfl | hyt
      · exfalso
        exact hx (by simp [hysid, hsid])
      · exact ⟨y, hyt, hysid⟩

theorem find_saveSession (ss : List Session) (s2 : Session) (sid : Nat)
    (hsid : s2.sessionId = sid) (hact : s2.isActive = true)
    (hmem : ∃ x ∈ ss, x.sessionId = sid) :
    findBySessionId (saveSession ss s2) sid = some s2 := by
  unfold saveSession
  obtain ⟨x, hx, hxsid⟩ := hmem
  rw [if_pos (List.any_eq_true.mpr ⟨x, hx, by rw [hxsid, hsid]; simp⟩)]
  exact find_map_replace ss s2 sid hsid hact ⟨x, hx, hxsid⟩

theorem findBySessionId_props (ss : List Session) (sid : Nat) (s : Session)
    (hfind : findBySessionId ss sid = some s) :
    s ∈ ss ∧ s.sessionId = sid ∧ s.isActive = true := by
  unfold findBySessionId at hfind
  refine ⟨List.mem_of_find?_eq_some hfind, ?_, ?_⟩
  · have := List.find?_some hfind
    simp only [Bool.and_eq_true, beq_iff_eq] at this
    exact this.1
  · have := List.find?_some hfind
    simp only [Bool.and_eq_true] at this
    exact this.2

/-- C1 counterexample: a session whose stored refresh-token hash is 100
(the hash of the old token, nonce 100) is rotated by a first successful
exchange — the stored hash becomes 201, the hash of the newly issued
refresh token — yet a second `refreshToken` call presenting the original
(old) refresh token still succeeds instead of failing with the
invalid-session error, because the use case never compares the presented
token against the stored hash. -/
theorem c1_counterexample :
    (refreshTokenUseCase (fun t => t.nonce)
      [{ userId := 7, sessionId := 1, refreshToken := 100, deviceId := 3,
         refreshIssuedAt := 0, expiresAt := dayMs }]
      { userId := 7, sessionId := 1, deviceId := 3, tokenType := .refresh,
        exp := dayMs, nonce := 100 } 1000 200).isOk = true ∧
    okSessions (refreshTokenUseCase (fun t => t.nonce)
      [{ userId := 7, sessionId := 1, refreshToken := 100, deviceId := 3,
         refreshIssuedAt := 0, expiresAt := dayMs }]
      { userId := 7, sessionId := 1, deviceId := 3, tokenType := .refresh,
        exp := dayMs, nonce := 100 } 1000 200) [] =
      [{ userId := 7, sessionId := 1, refreshToken := 201, deviceId := 3,
         isActive := true, refreshIssuedAt := 1000, expiresAt := 604801000,
         revokedAt := none,
         domainEvents := [⟨"SessionRefreshTokenUpdated"⟩] }] ∧
    (refreshTokenUseCase (fun t => t.nonce)
      (okSessions (refreshTokenUseCase (fun t => t.nonce)
        [{ userId := 7, sessionId := 1, refreshToken := 100, deviceId := 3,
           refreshIssuedAt := 0, expiresAt := dayMs }]
        { userId := 7, sessionId := 1, deviceId := 3, tokenType := .refresh,
          exp := dayMs, nonce := 100 } 1000 200) [])
      { userId := 7, sessionId := 1, deviceId := 3, tokenType := .refresh,
        exp := dayMs, nonce := 100 } 2000 300).isOk = true :=
  ⟨rfl, rfl, rfl⟩

/-- C1 as amended: `updateRefreshToken` overwrites the stored refresh-token
hash, but `refreshToken` never compares the presented token against the
stored hash; hence after a successful exchange a second call presenting
the same (now old) refresh token still succeeds — it issues a new pair
instead of failing with the invalid-session error — as long as the old
JWT is unexpired and the session remains valid. -/
theorem c1_refresh_rotation_amended
    (hashTok : Token → Nat) (ss : List Session) (tok : Token) (s : Session)
    (now1 now2 n1 n2 : Nat)
    (hfind : findBySessionId ss tok.sessionId = some s)
    (hvalid : s.isValid now1 = true)
    (htype : tok.tokenType = .refresh)
    (hexp1 : now1 < tok.exp + clockToleranceMs)
    (hexp2 : now2 < tok.exp + clockToleranceMs)
    (hnow2 : now2 ≤ now1 + refreshTokenExpiryMs) :
    (refreshTokenUseCase hashTok ss tok now1 n1).isOk = true ∧
    (refreshTokenUseCase hashTok
      (okSessions (refreshTokenUseCase hashTok ss tok now1 n1) ss)
      tok now2 n2).isOk = true := by
  have hver1 : verifyRefreshToken tok now1 = .ok tok := by
    unfold verifyRefreshToken
    rw [if_neg (by omega), if_neg (fun h => h htype)]
  have hver2 : verifyRefreshToken tok now2 = .ok tok := by
    unfold verifyRefreshToken
    rw [if_neg (by omega), if_neg (fun h => h htype)]
  obtain ⟨hmem, hsid, hact⟩ := findBySessionId_props ss tok.sessionId s hfind
  have hrev : s.revokedAt = none := by
    unfold Session.isValid Session.isRevoked at hvalid
    simp only [Bool.and_eq_true, Bool.not_eq_true'] at hvalid
    exact Option.not_isSome_iff_eq_none.mp (by rw [hvalid.2]; exact Bool.false_ne_true)
  have e1 : refreshTokenUseCase hashTok ss tok now1 n1 =
      .ok (generateTokenPair tok.userId s.sessionId tok.deviceId now1 n1,
        saveSession ss
          { s with
              refreshToken := hashTok
                (generateTokenPair tok.userId s.sessionId tok.deviceId now1 n1).refreshTok
              refreshIssuedAt := now1
              expiresAt := now1 + refreshTokenExpiryMs
              domainEvents := s.domainEvents ++ [⟨"SessionRefreshTokenUpdated"⟩] },
        [⟨"SessionRefreshTokenUpdated"⟩]) := by
    unfold refreshTokenUseCase
    rw [hver1]
    dsimp only
    rw [hfind]
    dsimp only
    rw [hvalid]
    rw [if_neg (by decide)]
    rfl
  refine ⟨by rw [e1]; rfl, ?_⟩
  rw [e1]
  dsimp only [okSessions]
  have hfind2 : findBySessionId (saveSession ss
      { s with
          refreshToken := hashTok
            (generateTokenPair tok.userId s.sessionId tok.deviceId now1 n1).refreshTok
          refreshIssuedAt := now1
          expiresAt := now1 + refreshTokenExpiryMs
          domainEvents := s.domainEvents ++ [⟨"SessionRefreshTokenUpdated"⟩] })
      tok.sessionId = some
      { s with
          refreshToken := hashTok
            (generateTokenPair tok.userId s.sessionId tok.deviceId now1 n1).refreshTok
          refreshIssuedAt := now1
          expiresAt := now1 + refreshTokenExpiryMs
          domainEvents := s.domainEvents ++ [⟨"SessionRefreshTokenUpdated"⟩] } :=
    find_saveSession _ _ _ hsid hact ⟨s, hmem, hsid⟩
  have hvalid2 : Session.isValid
      { s with
          refreshToken := hashTok
            (generateTokenPair tok.userId s.sessionId tok.deviceId now1 n1).refreshTok
          refreshIssuedAt := now1
          expiresAt := now1 + refreshTokenExpiryMs
          domainEvents := s.domainEvents ++ [⟨"SessionRefreshTokenUpdated"⟩] }
      now2 = true := by
    simp [Session.isValid, Session.isExpired, Session.isRevoked, hact, hrev]
    omega
  unfold refreshTokenUseCase
  rw [hver2]
  dsimp only
  rw [hfind2]
  dsimp only
  rw [hvalid2]
  rw [if_neg (by decide)]
  rfl

/-- Witness for C1 as amended: the concrete double-exchange of the
counterexample scenario, via the general theorem. -/
theorem c1_refresh_rotation_amended_witness :
    (refreshTokenUseCase (fun t => t.nonce)
      [{ userId := 7, sessionId := 1, refreshToken := 100, deviceId := 3,
         refreshIssuedAt := 0, expiresAt := dayMs }]
      { userId := 7, sessionId := 1, deviceId := 3, tokenType := .refresh,
        exp := dayMs, nonce := 100 } 1000 200).isOk = true ∧
    (refreshTokenUseCase (fun t => t.nonce)
      (okSessions (refreshTokenUseCase (fun t => t.nonce)
        [{ userId := 7, sessionId := 1, refreshToken := 100, deviceId := 3,
           refreshIssuedAt := 0, expiresAt := dayMs }]
        { userId := 7, sessionId := 1, deviceId := 3, tokenType := .refresh,
          exp := dayMs, nonce := 100 } 1000 200)
        [{ userId := 7, sessionId := 1, refreshToken := 100, deviceId := 3,
           refreshIssuedAt := 0, expiresAt := dayMs }])
      { userId := 7, sessionId := 1, deviceId := 3, tokenType := .refresh,
        exp := dayMs, nonce := 100 } 2000 300).isOk = true :=
  c1_refresh_rotation_amended (fun t => t.nonce)
    [{ userId := 7, sessionId := 1, refreshToken := 100, deviceId := 3,
       refreshIssuedAt := 0, expiresAt := dayMs }]
    { userId := 7, sessionId := 1, deviceId := 3, tokenType := .refresh,
      exp := dayMs, nonce := 100 }
    { userId := 7, sessionId := 1, refreshToken := 100, deviceId := 3,
      refreshIssuedAt := 0, expiresAt := dayMs }
    1000 2000 200 300 rfl rfl rfl (by decide) (by decide) (by decide)

end Lianxin
